import Mathlib

/-!
Verification of the CSTR-with-cooling-jacket reactor model
(`src/Chemical reactor/src/utils/cstrModel.ts`).

The model is embedded shallowly over the real numbers: the simulator state
and parameter records become Lean structures, each private method of
`CSTRSimulator` becomes a pure function of `(params, state)`, and the
RK4 `step()` method becomes a pure state transformer mirroring the
source line by line (stage increments, restoring the original state
between stages, and the final weighted combination).
-/

namespace CSTR

noncomputable section

/-- The mutable simulator state (`CSTRState` in the source). -/
structure CSTRState where
  volume : ℝ
  concentration : ℝ
  temperature : ℝ
  jacketTemp : ℝ
  time : ℝ
  deriving DecidableEq

/-- The 19 physical parameters (`CSTRParameters` in the source). -/
structure CSTRParameters where
  inletFlowRate : ℝ
  feedConcentration : ℝ
  feedTemperature : ℝ
  jacketInletTemp : ℝ
  valveConstant : ℝ
  minimumVolume : ℝ
  preExponentialFactor : ℝ
  activationEnergy : ℝ
  gasConstant : ℝ
  reactionOrder : ℝ
  density : ℝ
  heatCapacity : ℝ
  heatOfReaction : ℝ
  heatTransferCoeff : ℝ
  heatTransferArea : ℝ
  jacketDensity : ℝ
  jacketHeatCapacity : ℝ
  jacketVolume : ℝ
  jacketFlowRate : ℝ
  deriving DecidableEq

/-- The fixed time step: `private dt: number = 0.1` in the source. -/
def dt : ℝ := 0.1

/-- `getOutletFlowRate`: valve equation `KV * (V - Vmin)`. -/
def getOutletFlowRate (p : CSTRParameters) (s : CSTRState) : ℝ :=
  p.valveConstant * (s.volume - p.minimumVolume)

/-- `calculateRateConstant`: Arrhenius `alpha * exp(-E / (R * T))`. -/
def calculateRateConstant (p : CSTRParameters) (s : CSTRState) : ℝ :=
  p.preExponentialFactor *
    Real.exp (-p.activationEnergy / (p.gasConstant * s.temperature))

/-- `getReactionRateValue`: `k * CA ^ n` with a real-valued power. -/
def getReactionRateValue (p : CSTRParameters) (s : CSTRState) : ℝ :=
  calculateRateConstant p s * s.concentration ^ p.reactionOrder

/-- `volumeDerivative`: `dV/dt = F0 - F`. -/
def volumeDerivative (p : CSTRParameters) (s : CSTRState) : ℝ :=
  p.inletFlowRate - getOutletFlowRate p s

/-- `concentrationDerivative`: `dCA/dt = (F0*CA0 - F*CA - V*r) / V`. -/
def concentrationDerivative (p : CSTRParameters) (s : CSTRState) : ℝ :=
  (p.inletFlowRate * p.feedConcentration -
    getOutletFlowRate p s * s.concentration -
    s.volume * getReactionRateValue p s) / s.volume

/-- `temperatureDerivative`:
`dT/dt = (rho*Cp*(F0*T0 - F*T) - lambda*V*r - U*AH*(T - TJ)) / (rho*Cp*V)`. -/
def temperatureDerivative (p : CSTRParameters) (s : CSTRState) : ℝ :=
  let outletFlow := getOutletFlowRate p s
  let reactionRate := getReactionRateValue p s
  let volumetricHeatCapacity := p.density * p.heatCapacity
  let convectiveTerm := volumetricHeatCapacity *
    (p.inletFlowRate * p.feedTemperature - outletFlow * s.temperature)
  let reactionTerm := p.heatOfReaction * s.volume * reactionRate
  let heatTransferTerm := p.heatTransferCoeff * p.heatTransferArea *
    (s.temperature - s.jacketTemp)
  (convectiveTerm - reactionTerm - heatTransferTerm) /
    (volumetricHeatCapacity * s.volume)

/-- `jacketTempDerivative`:
`dTJ/dt = (FJ*rhoJ*CJ*(TJ0 - TJ) + U*AH*(T - TJ)) / (rhoJ*VJ*CJ)`. -/
def jacketTempDerivative (p : CSTRParameters) (s : CSTRState) : ℝ :=
  let jacketHeatCapacity := p.jacketDensity * p.jacketHeatCapacity
  let convectiveTerm := p.jacketFlowRate * jacketHeatCapacity *
    (p.jacketInletTemp - s.jacketTemp)
  let heatTransferTerm := p.heatTransferCoeff * p.heatTransferArea *
    (s.temperature - s.jacketTemp)
  (convectiveTerm + heatTransferTerm) / (jacketHeatCapacity * p.jacketVolume)

/-- One RK4 stage perturbation: the source restores `originalState` and then
adds an increment to each of the four physical fields (`time` untouched). -/
def stageAdd (s : CSTRState) (kv kc kt ktj : ℝ) : CSTRState :=
  { s with
    volume := s.volume + kv
    concentration := s.concentration + kc
    temperature := s.temperature + kt
    jacketTemp := s.jacketTemp + ktj }

/-- `step()`: classical RK4, mirroring the source: `k1` at the current state,
`k2`/`k3` at the original state perturbed by half the previous increment,
`k4` at the original state perturbed by the full `k3`, then the final
weighted combination and `time += dt`. -/
def stepState (p : CSTRParameters) (s : CSTRState) : CSTRState :=
  let k1_v := dt * volumeDerivative p s
  let k1_c := dt * concentrationDerivative p s
  let k1_t := dt * temperatureDerivative p s
  let k1_tj := dt * jacketTempDerivative p s
  let s2 := stageAdd s (k1_v / 2) (k1_c / 2) (k1_t / 2) (k1_tj / 2)
  let k2_v := dt * volumeDerivative p s2
  let k2_c := dt * concentrationDerivative p s2
  let k2_t := dt * temperatureDerivative p s2
  let k2_tj := dt * jacketTempDerivative p s2
  let s3 := stageAdd s (k2_v / 2) (k2_c / 2) (k2_t / 2) (k2_tj / 2)
  let k3_v := dt * volumeDerivative p s3
  let k3_c := dt * concentrationDerivative p s3
  let k3_t := dt * temperatureDerivative p s3
  let k3_tj := dt * jacketTempDerivative p s3
  let s4 := stageAdd s k3_v k3_c k3_t k3_tj
  let k4_v := dt * volumeDerivative p s4
  let k4_c := dt * concentrationDerivative p s4
  let k4_t := dt * temperatureDerivative p s4
  let k4_tj := dt * jacketTempDerivative p s4
  { volume := s.volume + (k1_v + 2 * k2_v + 2 * k3_v + k4_v) / 6
    concentration := s.concentration + (k1_c + 2 * k2_c + 2 * k3_c + k4_c) / 6
    temperature := s.temperature + (k1_t + 2 * k2_t + 2 * k3_t + k4_t) / 6
    jacketTemp := s.jacketTemp + (k1_tj + 2 * k2_tj + 2 * k3_tj + k4_tj) / 6
    time := s.time + dt }

/-- `n` repeated calls to `step()`. -/
def stepN (p : CSTRParameters) : ℕ → CSTRState → CSTRState
  | 0, s => s
  | n + 1, s => stepN p n (stepState p s)

/-- A simulator instance: one state and one parameter snapshot. -/
structure CSTRSimulator where
  state : CSTRState
  params : CSTRParameters

/-- A record of optional parameter overrides
(`Partial<CSTRParameters>` in the source). -/
structure CSTRParametersPatch where
  inletFlowRate : Option ℝ := none
  feedConcentration : Option ℝ := none
  feedTemperature : Option ℝ := none
  jacketInletTemp : Option ℝ := none
  valveConstant : Option ℝ := none
  minimumVolume : Option ℝ := none
  preExponentialFactor : Option ℝ := none
  activationEnergy : Option ℝ := none
  gasConstant : Option ℝ := none
  reactionOrder : Option ℝ := none
  density : Option ℝ := none
  heatCapacity : Option ℝ := none
  heatOfReaction : Option ℝ := none
  heatTransferCoeff : Option ℝ := none
  heatTransferArea : Option ℝ := none
  jacketDensity : Option ℝ := none
  jacketHeatCapacity : Option ℝ := none
  jacketVolume : Option ℝ := none
  jacketFlowRate : Option ℝ := none

/-- The spread-merge `{ ...this.params, ...newParams }`: a field present in
the patch wins, an absent field keeps its current value. -/
def mergeParams (p : CSTRParameters) (q : CSTRParametersPatch) : CSTRParameters where
  inletFlowRate := q.inletFlowRate.getD p.inletFlowRate
  feedConcentration := q.feedConcentration.getD p.feedConcentration
  feedTemperature := q.feedTemperature.getD p.feedTemperature
  jacketInletTemp := q.jacketInletTemp.getD p.jacketInletTemp
  valveConstant := q.valveConstant.getD p.valveConstant
  minimumVolume := q.minimumVolume.getD p.minimumVolume
  preExponentialFactor := q.preExponentialFactor.getD p.preExponentialFactor
  activationEnergy := q.activationEnergy.getD p.activationEnergy
  gasConstant := q.gasConstant.getD p.gasConstant
  reactionOrder := q.reactionOrder.getD p.reactionOrder
  density := q.density.getD p.density
  heatCapacity := q.heatCapacity.getD p.heatCapacity
  heatOfReaction := q.heatOfReaction.getD p.heatOfReaction
  heatTransferCoeff := q.heatTransferCoeff.getD p.heatTransferCoeff
  heatTransferArea := q.heatTransferArea.getD p.heatTransferArea
  jacketDensity := q.jacketDensity.getD p.jacketDensity
  jacketHeatCapacity := q.jacketHeatCapacity.getD p.jacketHeatCapacity
  jacketVolume := q.jacketVolume.getD p.jacketVolume
  jacketFlowRate := q.jacketFlowRate.getD p.jacketFlowRate

/-- `updateParameters(newParams)`: replaces the parameter snapshot with the
merge, leaving the state untouched. -/
def updateParameters (sim : CSTRSimulator) (q : CSTRParametersPatch) : CSTRSimulator :=
  { sim with params := mergeParams sim.params q }

/-- `step()` on a simulator instance. -/
def stepSim (sim : CSTRSimulator) : CSTRSimulator :=
  { sim with state := stepState sim.params sim.state }

/-- `getConversion()`: `0` when `CA0 = 0`, else `(CA0 - CA)/CA0 * 100`. -/
def getConversion (p : CSTRParameters) (s : CSTRState) : ℝ :=
  if p.feedConcentration = 0 then 0
  else (p.feedConcentration - s.concentration) / p.feedConcentration * 100

/-- `getResidenceTime()`: `V / F` when `F > 0`, else `0`. -/
def getResidenceTime (p : CSTRParameters) (s : CSTRState) : ℝ :=
  let outletFlow := getOutletFlowRate p s
  if outletFlow > 0 then s.volume / outletFlow else 0

/-- `getHeatRemovalRate()`: `U * AH * (T - TJ) / 1000`. -/
def getHeatRemovalRate (p : CSTRParameters) (s : CSTRState) : ℝ :=
  p.heatTransferCoeff * p.heatTransferArea *
    (s.temperature - s.jacketTemp) / 1000

/-- `getReactionRate()`: exposes `getReactionRateValue`. -/
def getReactionRate (p : CSTRParameters) (s : CSTRState) : ℝ :=
  getReactionRateValue p s

/-- `getOutletFlow()`: exposes `getOutletFlowRate`. -/
def getOutletFlow (p : CSTRParameters) (s : CSTRState) : ℝ :=
  getOutletFlowRate p s

/-! ### Specification-side definitions

These are written from the wording of the specification (section 4.1),
to be compared against the embedded code. -/

/-- Componentwise sum of two state vectors `(V, CA, T, TJ)`. -/
def vAdd (x y : ℝ × ℝ × ℝ × ℝ) : ℝ × ℝ × ℝ × ℝ :=
  (x.1 + y.1, x.2.1 + y.2.1, x.2.2.1 + y.2.2.1, x.2.2.2 + y.2.2.2)

/-- Componentwise scalar multiple of a state vector. -/
def vScale (c : ℝ) (x : ℝ × ℝ × ℝ × ℝ) : ℝ × ℝ × ℝ × ℝ :=
  (c * x.1, c * x.2.1, c * x.2.2.1, c * x.2.2.2)

/-- Componentwise division of a state vector by a scalar. -/
def vDiv (x : ℝ × ℝ × ℝ × ℝ) (c : ℝ) : ℝ × ℝ × ℝ × ℝ :=
  (x.1 / c, x.2.1 / c, x.2.2.1 / c, x.2.2.2 / c)

/-- The derivative vector `f(x)` exactly as the spec states it:
`F = KV·(V − Vmin)`, `k = α·exp(−E/(R·T))`, `r = k·CA^n`, and the four
balance equations of spec section 4.1. -/
def specF (p : CSTRParameters) (V CA T TJ : ℝ) : ℝ × ℝ × ℝ × ℝ :=
  let F := p.valveConstant * (V - p.minimumVolume)
  let k := p.preExponentialFactor * Real.exp (-p.activationEnergy / (p.gasConstant * T))
  let r := k * CA ^ p.reactionOrder
  (p.inletFlowRate - F,
   (p.inletFlowRate * p.feedConcentration - F * CA - V * r) / V,
   (p.density * p.heatCapacity * (p.inletFlowRate * p.feedTemperature - F * T) -
      p.heatOfReaction * V * r -
      p.heatTransferCoeff * p.heatTransferArea * (T - TJ)) /
    (p.density * p.heatCapacity * V),
   (p.jacketFlowRate * (p.jacketDensity * p.jacketHeatCapacity) *
      (p.jacketInletTemp - TJ) +
      p.heatTransferCoeff * p.heatTransferArea * (T - TJ)) /
    (p.jacketDensity * p.jacketHeatCapacity * p.jacketVolume))

/-- `specF` on a packed state vector. -/
def specFv (p : CSTRParameters) (x : ℝ × ℝ × ℝ × ℝ) : ℝ × ℝ × ℝ × ℝ :=
  specF p x.1 x.2.1 x.2.2.1 x.2.2.2

/-- The classical RK4 update exactly as the spec states it:
`k1 = dt·f(x0)`, `k2 = dt·f(x0 + k1/2)`, `k3 = dt·f(x0 + k2/2)`,
`k4 = dt·f(x0 + k3)`, new state `x0 + (k1 + 2·k2 + 2·k3 + k4)/6`,
`time` advanced by `dt`. -/
def specRK4 (p : CSTRParameters) (s : CSTRState) : CSTRState :=
  let x0 : ℝ × ℝ × ℝ × ℝ := (s.volume, s.concentration, s.temperature, s.jacketTemp)
  let k1 := vScale dt (specFv p x0)
  let k2 := vScale dt (specFv p (vAdd x0 (vDiv k1 2)))
  let k3 := vScale dt (specFv p (vAdd x0 (vDiv k2 2)))
  let k4 := vScale dt (specFv p (vAdd x0 k3))
  let xn := vAdd x0 (vDiv (vAdd (vAdd (vAdd k1 (vScale 2 k2)) (vScale 2 k3)) k4) 6)
  { volume := xn.1
    concentration := xn.2.1
    temperature := xn.2.2.1
    jacketTemp := xn.2.2.2
    time := s.time + dt }

/-! ### Concrete instances used in witnesses and counterexamples -/

/-- The reference parameter set of the MATLAB-based scenario. -/
def pRef : CSTRParameters where
  inletFlowRate := 1
  feedConcentration := 0.5
  feedTemperature := 350
  jacketInletTemp := 300
  valveConstant := 0.1
  minimumVolume := 0.1
  preExponentialFactor := 1
  activationEnergy := 10000
  gasConstant := 8.314
  reactionOrder := 2
  density := 1000
  heatCapacity := 4.18
  heatOfReaction := 1
  heatTransferCoeff := 100
  heatTransferArea := 1
  jacketDensity := 1000
  jacketHeatCapacity := 4.18
  jacketVolume := 0.1
  jacketFlowRate := 0.1

/-- The reference initial state of the MATLAB-based scenario. -/
def sRef : CSTRState where
  volume := 1
  concentration := 0.5
  temperature := 350
  jacketTemp := 300
  time := 0

/-- A state with the reference fields but zero volume. -/
def sZero : CSTRState := { sRef with volume := 0 }

/-- The reference parameters with the reaction switched off (`α = 0`). -/
def pNoReaction : CSTRParameters := { pRef with preExponentialFactor := 0 }

/-- The reference state with volume matched so that the outlet flow
equals the inlet flow: `Vmin + F0/KV = 0.1 + 1/0.1 = 10.1`. -/
def sMatched : CSTRState := { sRef with volume := 10.1 }

/-- A zero-reaction parameter set whose feed concentration differs from the
current concentration. -/
def pWash : CSTRParameters where
  inletFlowRate := 1
  feedConcentration := 1
  feedTemperature := 300
  jacketInletTemp := 300
  valveConstant := 1
  minimumVolume := 0
  preExponentialFactor := 0
  activationEnergy := 0
  gasConstant := 1
  reactionOrder := 1
  density := 1
  heatCapacity := 1
  heatOfReaction := 0
  heatTransferCoeff := 0
  heatTransferArea := 0
  jacketDensity := 1
  jacketHeatCapacity := 1
  jacketVolume := 1
  jacketFlowRate := 0

/-- A matched-volume state with concentration `0`, far from the feed
concentration `1` of `pWash`. -/
def sWash : CSTRState where
  volume := 1
  concentration := 0
  temperature := 300
  jacketTemp := 300
  time := 0

/-- The reference parameters with the valve constant set to zero. -/
def pValveZero : CSTRParameters := { pRef with valveConstant := 0 }

/-- The reference parameters with zero feed concentration. -/
def pFeedZero : CSTRParameters := { pRef with feedConcentration := 0 }

/-- A state with the reference fields but concentration `0.2`. -/
def sConc : CSTRState := { sRef with concentration := 0.2 }

/-- A concrete partial update: new feed concentration only. -/
def patchFeed : CSTRParametersPatch := { feedConcentration := some 2 }

/-- A concrete simulator holding the reference scenario. -/
def simRef : CSTRSimulator := { state := sRef, params := pRef }

/-- The RK4 volume update written as a function of the volume and of the
only three parameters the volume balance reads: `F0`, `KV`, `Vmin`. -/
def volAfterStep (f0 kv vmin v : ℝ) : ℝ :=
  let d := fun x => f0 - kv * (x - vmin)
  let k1 := dt * d v
  let k2 := dt * d (v + k1 / 2)
  let k3 := dt * d (v + k2 / 2)
  let k4 := dt * d (v + k3)
  v + (k1 + 2 * k2 + 2 * k3 + k4) / 6

/-- A second parameter set agreeing with the reference only on the three
volume-balance parameters. -/
def pOther : CSTRParameters :=
  { pRef with
    feedConcentration := 3
    feedTemperature := 400
    activationEnergy := 5000
    reactionOrder := 1
    heatTransferCoeff := 7 }

/-- A second state agreeing with the reference only on the volume. -/
def sOther : CSTRState :=
  { sRef with
    concentration := 9
    temperature := 410
    jacketTemp := 290
    time := 42 }

end

end CSTR

namespace CSTR

noncomputable section

/-! ### Claim theorems -/

/-- Claim C1: for every state and parameter set, `step()` advances the model
by exactly one classical RK4 step: `k1 = dt·f(x0)`, `k2 = dt·f(x0 + k1/2)`,
`k3 = dt·f(x0 + k2/2)`, `k4 = dt·f(x0 + k3)`, each stage evaluated from the
restored original state `x0`, and the new state is
`x0 + (k1 + 2·k2 + 2·k3 + k4)/6` with `time` advanced by `dt`. In the pure
embedding the result of `stepState` is the only observable outcome, so no
intermediate stage state leaks. -/
theorem step_is_classical_rk4 (p : CSTRParameters) (s : CSTRState) :
    stepState p s = specRK4 p s := rfl

/-- Claim C2: the four derivative functions evaluated by the integrator
equal the formulas of the spec: with `F = KV·(V − Vmin)`,
`k = α·exp(−E/(R·T))` and `r = k·CA^n`, `dV/dt = F0 − F`,
`dCA/dt = (F0·CA0 − F·CA − V·r)/V`,
`dT/dt = (ρCp·(F0·T0 − F·T) − λ·V·r − U·AH·(T − TJ))/(ρCp·V)`, and
`dTJ/dt = (FJ·ρJCJ·(TJ0 − TJ) + U·AH·(T − TJ))/(ρJCJ·VJ)`. -/
theorem derivatives_match_spec (p : CSTRParameters) (s : CSTRState) :
    volumeDerivative p s =
      p.inletFlowRate - p.valveConstant * (s.volume - p.minimumVolume) ∧
    concentrationDerivative p s =
      (p.inletFlowRate * p.feedConcentration -
        p.valveConstant * (s.volume - p.minimumVolume) * s.concentration -
        s.volume * (p.preExponentialFactor *
          Real.exp (-p.activationEnergy / (p.gasConstant * s.temperature)) *
          s.concentration ^ p.reactionOrder)) / s.volume ∧
    temperatureDerivative p s =
      (p.density * p.heatCapacity *
        (p.inletFlowRate * p.feedTemperature -
          p.valveConstant * (s.volume - p.minimumVolume) * s.temperature) -
        p.heatOfReaction * s.volume * (p.preExponentialFactor *
          Real.exp (-p.activationEnergy / (p.gasConstant * s.temperature)) *
          s.concentration ^ p.reactionOrder) -
        p.heatTransferCoeff * p.heatTransferArea *
          (s.temperature - s.jacketTemp)) /
      (p.density * p.heatCapacity * s.volume) ∧
    jacketTempDerivative p s =
      (p.jacketFlowRate * (p.jacketDensity * p.jacketHeatCapacity) *
        (p.jacketInletTemp - s.jacketTemp) +
        p.heatTransferCoeff * p.heatTransferArea *
          (s.temperature - s.jacketTemp)) /
      (p.jacketDensity * p.jacketHeatCapacity * p.jacketVolume) :=
  ⟨rfl, rfl, rfl, rfl⟩

/-- Claim C8: in the concrete MATLAB-reference scenario, before the first
step the outlet flow equals `0.1·(1.0 − 0.1) = 0.09` and the volume
derivative at the initial state equals `1.0 − 0.09 = 0.91`. -/
theorem reference_scenario_initial_values :
    getOutletFlow pRef sRef = 0.09 ∧ volumeDerivative pRef sRef = 0.91 := by
  norm_num [getOutletFlow, getOutletFlowRate, volumeDerivative, pRef, sRef]

/-- Claim C9: `getResidenceTime()` returns `V / F` when the outlet flow
`F = KV·(V − Vmin)` is strictly positive, and `0` when `F` is zero or
negative. -/
theorem residence_time_spec (p : CSTRParameters) (s : CSTRState) :
    (0 < p.valveConstant * (s.volume - p.minimumVolume) →
      getResidenceTime p s =
        s.volume / (p.valveConstant * (s.volume - p.minimumVolume))) ∧
    (p.valveConstant * (s.volume - p.minimumVolume) ≤ 0 →
      getResidenceTime p s = 0) := by
  constructor
  · intro h
    simp only [getResidenceTime, getOutletFlowRate]
    rw [if_pos h]
  · intro h
    simp only [getResidenceTime, getOutletFlowRate]
    rw [if_neg (not_lt.mpr h)]

/-- Witness for C9: at the reference scenario the outlet flow is positive and
the residence time is `V / F`; at zero volume the outlet flow is negative and
the residence time is `0`. -/
theorem residence_time_spec_witness :
    getResidenceTime pRef sRef =
      sRef.volume / (pRef.valveConstant * (sRef.volume - pRef.minimumVolume)) ∧
    getResidenceTime pRef sZero = 0 :=
  ⟨(residence_time_spec pRef sRef).1 (by norm_num [pRef, sRef]),
   (residence_time_spec pRef sZero).2 (by norm_num [pRef, sRef, sZero])⟩

/-- Counterexample to claim C6 as stated: with valve constant `KV = 0` and
`V = 0 < Vmin = 0.1`, the outlet flow is `0·(0 − 0.1) = 0`, not strictly
negative, so the outlet flow is NOT strictly negative whenever `V < Vmin`
over all parameter sets. -/
theorem outlet_flow_counterexample :
    sZero.volume < pValveZero.minimumVolume ∧
    ¬ getOutletFlow pValveZero sZero < 0 := by
  norm_num [getOutletFlow, getOutletFlowRate, pValveZero, pRef, sRef, sZero]

/-- Claim C6, amended: for every state and parameter set the outlet flow
returned by `getOutletFlow()` equals `KV·(V − Vmin)` with no clamping, and
it is strictly negative whenever `V < Vmin`, provided the valve constant
`KV` is strictly positive. -/
theorem outlet_flow_unclamped (p : CSTRParameters) (s : CSTRState) :
    getOutletFlow p s = p.valveConstant * (s.volume - p.minimumVolume) ∧
    (0 < p.valveConstant → s.volume < p.minimumVolume →
      getOutletFlow p s < 0) := by
  refine ⟨rfl, fun hKV hV => ?_⟩
  have : s.volume - p.minimumVolume < 0 := by linarith
  simpa [getOutletFlow, getOutletFlowRate] using mul_neg_of_pos_of_neg hKV this

/-- Witness for the amended C6: with the reference parameters
(`KV = 0.1 > 0`) and zero volume (`0 < Vmin = 0.1`) the outlet flow is
strictly negative. -/
theorem outlet_flow_unclamped_witness :
    getOutletFlow pRef sZero < 0 :=
  (outlet_flow_unclamped pRef sZero).2 (by norm_num [pRef])
    (by norm_num [pRef, sRef, sZero])

/-- Claim C5: `getConversion()` returns exactly `0` when `CA0 = 0`, returns
`(CA0 − CA)/CA0 · 100` otherwise, and for `CA0 > 0` and `CA ∈ [0, CA0]` the
returned value lies in `[0, 100]`. -/
theorem conversion_spec (p : CSTRParameters) (s : CSTRState) :
    (p.feedConcentration = 0 → getConversion p s = 0) ∧
    (p.feedConcentration ≠ 0 →
      getConversion p s =
        (p.feedConcentration - s.concentration) / p.feedConcentration * 100) ∧
    (0 < p.feedConcentration → 0 ≤ s.concentration →
      s.concentration ≤ p.feedConcentration →
      0 ≤ getConversion p s ∧ getConversion p s ≤ 100) := by
  refine ⟨fun h => by simp [getConversion, h], fun h => by simp [getConversion, h], ?_⟩
  intro hpos hlo hhi
  have hne : p.feedConcentration ≠ 0 := ne_of_gt hpos
  rw [getConversion, if_neg hne]
  constructor
  · have h1 : 0 ≤ (p.feedConcentration - s.concentration) / p.feedConcentration :=
      div_nonneg (by linarith) (le_of_lt hpos)
    linarith
  · have h2 : (p.feedConcentration - s.concentration) / p.feedConcentration ≤ 1 :=
      (div_le_one hpos).mpr (by linarith)
    linarith

/-- Witness for C5: with `CA0 = 0` the conversion is exactly `0`; with the
reference `CA0 = 0.5 > 0` and `CA = 0.2 ∈ [0, 0.5]` the conversion lies in
`[0, 100]`. -/
theorem conversion_spec_witness :
    getConversion pFeedZero sRef = 0 ∧
    (0 ≤ getConversion pRef sConc ∧ getConversion pRef sConc ≤ 100) :=
  ⟨(conversion_spec pFeedZero sRef).1 rfl,
   (conversion_spec pRef sConc).2.2 (by norm_num [pRef])
     (by norm_num [sRef, sConc]) (by norm_num [pRef, sRef, sConc])⟩

/-- Claim C3: the time step `dt` is the fixed model-level constant `0.1`;
every `step()` adds exactly `dt` to `time`; after `n` steps from any state
the time equals the initial time plus `n` accumulated additions of `dt`;
and `updateParameters` (the only other mutating operation) never changes
`time`. -/
theorem time_advances_by_dt :
    dt = 0.1 ∧
    (∀ (p : CSTRParameters) (s : CSTRState),
      (stepState p s).time = s.time + dt) ∧
    (∀ (p : CSTRParameters) (n : ℕ) (s : CSTRState),
      (stepN p n s).time = s.time + n * dt) ∧
    (∀ (sim : CSTRSimulator) (q : CSTRParametersPatch),
      (updateParameters sim q).state.time = sim.state.time) := by
  refine ⟨rfl, fun p s => rfl, fun p n => ?_, fun sim q => rfl⟩
  induction n with
  | zero => intro s; simp [stepN]
  | succ n ih =>
    intro s
    rw [stepN, ih]
    show (stepState p s).time + n * dt = s.time + (n + 1 : ℕ) * dt
    have : (stepState p s).time = s.time + dt := rfl
    rw [this]
    push_cast
    ring

/-- Claim C4: `updateParameters(partial)` replaces exactly the fields present
in the partial record (each present field takes its new value, each absent
field keeps its current value), leaves the whole state record unchanged, and
the next `step()` evaluates with the merged parameter set. -/
theorem update_parameters_spec (sim : CSTRSimulator) (q : CSTRParametersPatch) :
    (updateParameters sim q).state = sim.state ∧
    (stepSim (updateParameters sim q)).state =
      stepState (mergeParams sim.params q) sim.state ∧
    ((∀ v, q.inletFlowRate = some v → (mergeParams sim.params q).inletFlowRate = v) ∧
     (q.inletFlowRate = none →
       (mergeParams sim.params q).inletFlowRate = sim.params.inletFlowRate)) ∧
    ((∀ v, q.feedConcentration = some v → (mergeParams sim.params q).feedConcentration = v) ∧
     (q.feedConcentration = none →
       (mergeParams sim.params q).feedConcentration = sim.params.feedConcentration)) ∧
    ((∀ v, q.feedTemperature = some v → (mergeParams sim.params q).feedTemperature = v) ∧
     (q.feedTemperature = none →
       (mergeParams sim.params q).feedTemperature = sim.params.feedTemperature)) ∧
    ((∀ v, q.jacketInletTemp = some v → (mergeParams sim.params q).jacketInletTemp = v) ∧
     (q.jacketInletTemp = none →
       (mergeParams sim.params q).jacketInletTemp = sim.params.jacketInletTemp)) ∧
    ((∀ v, q.valveConstant = some v → (mergeParams sim.params q).valveConstant = v) ∧
     (q.valveConstant = none →
       (mergeParams sim.params q).valveConstant = sim.params.valveConstant)) ∧
    ((∀ v, q.minimumVolume = some v → (mergeParams sim.params q).minimumVolume = v) ∧
     (q.minimumVolume = none →
       (mergeParams sim.params q).minimumVolume = sim.params.minimumVolume)) ∧
    ((∀ v, q.preExponentialFactor = some v →
       (mergeParams sim.params q).preExponentialFactor = v) ∧
     (q.preExponentialFactor = none →
       (mergeParams sim.params q).preExponentialFactor = sim.params.preExponentialFactor)) ∧
    ((∀ v, q.activationEnergy = some v → (mergeParams sim.params q).activationEnergy = v) ∧
     (q.activationEnergy = none →
       (mergeParams sim.params q).activationEnergy = sim.params.activationEnergy)) ∧
    ((∀ v, q.gasConstant = some v → (mergeParams sim.params q).gasConstant = v) ∧
     (q.gasConstant = none →
       (mergeParams sim.params q).gasConstant = sim.params.gasConstant)) ∧
    ((∀ v, q.reactionOrder = some v → (mergeParams sim.params q).reactionOrder = v) ∧
     (q.reactionOrder = none →
       (mergeParams sim.params q).reactionOrder = sim.params.reactionOrder)) ∧
    ((∀ v, q.density = some v → (mergeParams sim.params q).density = v) ∧
     (q.density = none → (mergeParams sim.params q).density = sim.params.density)) ∧
    ((∀ v, q.heatCapacity = some v → (mergeParams sim.params q).heatCapacity = v) ∧
     (q.heatCapacity = none →
       (mergeParams sim.params q).heatCapacity = sim.params.heatCapacity)) ∧
    ((∀ v, q.heatOfReaction = some v → (mergeParams sim.params q).heatOfReaction = v) ∧
     (q.heatOfReaction = none →
       (mergeParams sim.params q).heatOfReaction = sim.params.heatOfReaction)) ∧
    ((∀ v, q.heatTransferCoeff = some v → (mergeParams sim.params q).heatTransferCoeff = v) ∧
     (q.heatTransferCoeff = none →
       (mergeParams sim.params q).heatTransferCoeff = sim.params.heatTransferCoeff)) ∧
    ((∀ v, q.heatTransferArea = some v → (mergeParams sim.params q).heatTransferArea = v) ∧
     (q.heatTransferArea = none →
       (mergeParams sim.params q).heatTransferArea = sim.params.heatTransferArea)) ∧
    ((∀ v, q.jacketDensity = some v → (mergeParams sim.params q).jacketDensity = v) ∧
     (q.jacketDensity = none →
       (mergeParams sim.params q).jacketDensity = sim.params.jacketDensity)) ∧
    ((∀ v, q.jacketHeatCapacity = some v →
       (mergeParams sim.params q).jacketHeatCapacity = v) ∧
     (q.jacketHeatCapacity = none →
       (mergeParams sim.params q).jacketHeatCapacity = sim.params.jacketHeatCapacity)) ∧
    ((∀ v, q.jacketVolume = some v → (mergeParams sim.params q).jacketVolume = v) ∧
     (q.jacketVolume = none →
       (mergeParams sim.params q).jacketVolume = sim.params.jacketVolume)) ∧
    ((∀ v, q.jacketFlowRate = some v → (mergeParams sim.params q).jacketFlowRate = v) ∧
     (q.jacketFlowRate = none →
       (mergeParams sim.params q).jacketFlowRate = sim.params.jacketFlowRate)) := by
  refine ⟨rfl, rfl, ?_, ?_, ?_, ?_, ?_, ?_, ?_, ?_, ?_, ?_, ?_, ?_, ?_, ?_, ?_, ?_, ?_, ?_, ?_⟩
  all_goals exact ⟨fun v h => by simp [mergeParams, h], fun h => by simp [mergeParams, h]⟩

/-- Witness for C4: updating only the feed concentration leaves the state
unchanged, sets the feed concentration to the new value, and keeps the
(absent) inlet flow rate at its current value. -/
theorem update_parameters_spec_witness :
    (updateParameters simRef patchFeed).state = simRef.state ∧
    (mergeParams simRef.params patchFeed).feedConcentration = 2 ∧
    (mergeParams simRef.params patchFeed).inletFlowRate =
      simRef.params.inletFlowRate :=
  ⟨(update_parameters_spec simRef patchFeed).1,
   (update_parameters_spec simRef patchFeed).2.2.2.1.1 2 rfl,
   (update_parameters_spec simRef patchFeed).2.2.1.2 rfl⟩

/-- The volume component of `step()` is computed from the volume and the
three volume-balance parameters alone. -/
theorem stepState_volume_eq (p : CSTRParameters) (s : CSTRState) :
    (stepState p s).volume =
      volAfterStep p.inletFlowRate p.valveConstant p.minimumVolume s.volume := rfl

/-- Claim C10: the volume after one `step()` depends only on the current
volume and the parameters `inletFlowRate`, `valveConstant` and
`minimumVolume`: two instances agreeing on those four values produce the
same new volume, whatever their concentrations, temperatures, or other
parameters. -/
theorem volume_noninterference (p₁ p₂ : CSTRParameters) (s₁ s₂ : CSTRState)
    (hV : s₁.volume = s₂.volume)
    (hF : p₁.inletFlowRate = p₂.inletFlowRate)
    (hK : p₁.valveConstant = p₂.valveConstant)
    (hM : p₁.minimumVolume = p₂.minimumVolume) :
    (stepState p₁ s₁).volume = (stepState p₂ s₂).volume := by
  rw [stepState_volume_eq, stepState_volume_eq, hV, hF, hK, hM]

/-- Witness for C10: the reference instance and a second instance with
different concentration, temperatures, time, and reaction parameters — but
the same volume, inlet flow rate, valve constant, and minimum volume —
produce the same volume after one step. -/
theorem volume_noninterference_witness :
    (stepState pRef sRef).volume = (stepState pOther sOther).volume :=
  volume_noninterference pRef pOther sRef sOther rfl rfl rfl rfl

/-- If the volume sits at `Vmin + F0/KV` (and `KV` is nonzero), the outlet
flow equals the inlet flow. -/
theorem outlet_eq_inlet (p : CSTRParameters) (u : CSTRState)
    (hKV : p.valveConstant ≠ 0)
    (hV : u.volume = p.minimumVolume + p.inletFlowRate / p.valveConstant) :
    getOutletFlowRate p u = p.inletFlowRate := by
  rw [getOutletFlowRate, hV]
  field_simp
  ring

/-- With the outlet flow matched to the inlet flow the volume derivative
vanishes. -/
theorem volumeDerivative_zero (p : CSTRParameters) (u : CSTRState)
    (hKV : p.valveConstant ≠ 0)
    (hV : u.volume = p.minimumVolume + p.inletFlowRate / p.valveConstant) :
    volumeDerivative p u = 0 := by
  rw [volumeDerivative, outlet_eq_inlet p u hKV hV]
  ring

/-- With no reaction, matched flows, and concentration at the feed value,
the concentration derivative vanishes. -/
theorem concentrationDerivative_zero (p : CSTRParameters) (u : CSTRState)
    (hα : p.preExponentialFactor = 0) (hKV : p.valveConstant ≠ 0)
    (hV : u.volume = p.minimumVolume + p.inletFlowRate / p.valveConstant)
    (hCA : u.concentration = p.feedConcentration) :
    concentrationDerivative p u = 0 := by
  rw [concentrationDerivative, outlet_eq_inlet p u hKV hV, hCA]
  simp [getReactionRateValue, calculateRateConstant, hα]

/-- Stage form of `volumeDerivative_zero`: perturbing the non-volume fields
does not disturb the vanishing volume derivative. -/
theorem volumeDerivative_stage_zero (p : CSTRParameters) (s : CSTRState)
    (hKV : p.valveConstant ≠ 0)
    (hV : s.volume = p.minimumVolume + p.inletFlowRate / p.valveConstant)
    (kc kt ktj : ℝ) :
    volumeDerivative p (stageAdd s 0 kc kt ktj) = 0 :=
  volumeDerivative_zero p _ hKV (by simpa [stageAdd] using hV)

/-- Stage form of `concentrationDerivative_zero`: perturbing the temperature
fields does not disturb the vanishing concentration derivative. -/
theorem concentrationDerivative_stage_zero (p : CSTRParameters) (s : CSTRState)
    (hα : p.preExponentialFactor = 0) (hKV : p.valveConstant ≠ 0)
    (hV : s.volume = p.minimumVolume + p.inletFlowRate / p.valveConstant)
    (hCA : s.concentration = p.feedConcentration) (kt ktj : ℝ) :
    concentrationDerivative p (stageAdd s 0 0 kt ktj) = 0 :=
  concentrationDerivative_zero p _ hα hKV (by simpa [stageAdd] using hV)
    (by simpa [stageAdd] using hCA)

/-- One zero-reaction matched-flow step preserves volume and concentration
exactly, through all four RK4 stages. -/
theorem stepState_zero_reaction (p : CSTRParameters) (s : CSTRState)
    (hKV : p.valveConstant ≠ 0) (hα : p.preExponentialFactor = 0)
    (hV : s.volume = p.minimumVolume + p.inletFlowRate / p.valveConstant)
    (hCA : s.concentration = p.feedConcentration) :
    (stepState p s).volume = s.volume ∧
    (stepState p s).concentration = s.concentration := by
  have h1v := volumeDerivative_zero p s hKV hV
  have h1c := concentrationDerivative_zero p s hα hKV hV hCA
  refine ⟨?_, ?_⟩ <;>
  · simp only [stepState]
    rw [h1v, h1c]
    simp only [mul_zero, zero_div,
      volumeDerivative_stage_zero p s hKV hV,
      concentrationDerivative_stage_zero p s hα hKV hV hCA]
    norm_num

/-- Claim C7, amended: with no reaction (`α = 0`), a nonzero valve constant,
the volume matched so that the outlet flow equals the inlet flow
(`V = Vmin + F0/KV`), and the concentration initially at the feed value
(`CA = CA0`), repeated calls to `step()` leave both the volume and the
concentration exactly unchanged. -/
theorem zero_reaction_steady (p : CSTRParameters) (s : CSTRState)
    (hKV : p.valveConstant ≠ 0) (hα : p.preExponentialFactor = 0)
    (hV : s.volume = p.minimumVolume + p.inletFlowRate / p.valveConstant)
    (hCA : s.concentration = p.feedConcentration) (n : ℕ) :
    (stepN p n s).volume = s.volume ∧
    (stepN p n s).concentration = s.concentration := by
  induction n generalizing s with
  | zero => exact ⟨rfl, rfl⟩
  | succ n ih =>
    have hstep := stepState_zero_reaction p s hKV hα hV hCA
    rw [stepN]
    obtain ⟨h1, h2⟩ := ih (stepState p s) (hstep.1.trans hV) (hstep.2.trans hCA)
    exact ⟨h1.trans hstep.1, h2.trans hstep.2⟩

/-- Witness for the amended C7: in the matched zero-reaction scenario,
three steps leave volume and concentration exactly unchanged. -/
theorem zero_reaction_steady_witness :
    (stepN pNoReaction 3 sMatched).volume = sMatched.volume ∧
    (stepN pNoReaction 3 sMatched).concentration = sMatched.concentration :=
  zero_reaction_steady pNoReaction sMatched
    (by norm_num [pNoReaction, pRef])
    (by norm_num [pNoReaction, pRef])
    (by norm_num [pNoReaction, pRef, sMatched, sRef])
    (by norm_num [pNoReaction, pRef, sMatched, sRef]) 3

/-- Counterexample to claim C7 as stated: with `α = 0` and
`V = Vmin + F0/KV` (outlet flow matched to inlet), one `step()` already
changes the concentration (the reactor washes toward the feed
concentration), so concentration is NOT constant for every such initial
state. -/
theorem zero_reaction_counterexample :
    pWash.preExponentialFactor = 0 ∧
    sWash.volume = pWash.minimumVolume + pWash.inletFlowRate / pWash.valveConstant ∧
    (stepState pWash sWash).concentration ≠ sWash.concentration := by
  refine ⟨rfl, by norm_num [pWash, sWash], ?_⟩
  have hval : (stepState pWash sWash).concentration = 7613 / 80000 := by
    norm_num [stepState, stageAdd, volumeDerivative, concentrationDerivative,
      temperatureDerivative, jacketTempDerivative, getOutletFlowRate,
      getReactionRateValue, calculateRateConstant, pWash, sWash, dt]
  rw [hval]
  norm_num [sWash]

end

end CSTR
